import Mathlib

/-!
Shallow embedding of the authentication and access-control core of the
Assets-Management-System repository (FastAPI + SQLAlchemy + bcrypt + jose),
together with theorems settling the spec claims.

Conventions of the embedding:
* Python byte strings are `List Nat` (each element one byte value);
  Python text strings used as passwords are `List Nat` of Unicode code
  points, turned into bytes by `utf8Encode` (the model of str.encode).
  Text strings used only as opaque identifiers (usernames, dict keys,
  error details) are Lean `String`.
* Machine integers of the source are `Int` / `Nat`; none of the involved
  quantities overflow in the source (database ids, Unix timestamps).
* Fallible Python code (functions that may raise) returns `Except`.
-/

/-! ### Model of the external bcrypt primitive (imported as `bcrypt`)

The bcrypt library derives a digest from a salt and the key truncated by
the algorithm itself to 72 bytes; `checkpw` re-derives the digest from the
candidate password and the salt stored in the hash value and compares.
Functionally the digest is determined by (salt, first 72 key bytes), which
the model represents directly.  A stored hash string either parses as a
well-formed bcrypt hash or it does not; on a malformed hash value
`bcrypt.checkpw` raises ValueError ("Invalid salt") instead of returning
False, which the model renders as an `Except.error`. -/

structure BcryptHash where
  salt : Nat
  key : List Nat
deriving DecidableEq, Repr

/-- Model of a Python string in hash position: either the textual form of a
well-formed bcrypt hash, or arbitrary malformed text. -/
inductive HashValue where
  | valid (h : BcryptHash)
  | malformed (bytes : List Nat)
deriving DecidableEq, Repr

/-- Model of bcrypt.hashpw: bcrypt itself uses at most the first 72 bytes of
the key. -/
def bcryptHashpw (password : List Nat) (salt : Nat) : BcryptHash :=
  ⟨salt, password.take 72⟩

/-- Model of bcrypt.checkpw: recompute with the salt stored in the hash and
compare; raises ValueError on a hash value that does not parse as bcrypt. -/
def bcryptCheckpw (password : List Nat) (hashed : HashValue) : Except String Bool :=
  match hashed with
  | .valid h => .ok (decide (password.take 72 = h.key))
  | .malformed _ => .error "ValueError: Invalid salt"

/-! ### app/core/security.py — password hashing -/

/-- BCRYPT_MAX_PASSWORD_BYTES from app/core/security.py. -/
def BCRYPT_MAX_PASSWORD_BYTES : Nat := 72

/-- The explicit truncation step shared by verify_password and
get_password_hash in app/core/security.py: truncate the encoded password
to 72 bytes when it is longer. -/
def truncateBytes (passwordBytes : List Nat) : List Nat :=
  if passwordBytes.length > BCRYPT_MAX_PASSWORD_BYTES then
    passwordBytes.take BCRYPT_MAX_PASSWORD_BYTES
  else passwordBytes

/-- verify_password from app/core/security.py, at the byte level (the
source first encodes the plaintext to UTF-8 bytes): truncate, then call
bcrypt.checkpw directly; there is no exception handler, so an error of the
primitive escapes. -/
def verify_password (plainBytes : List Nat) (hashedPassword : HashValue) :
    Except String Bool :=
  bcryptCheckpw (truncateBytes plainBytes) hashedPassword

/-- get_password_hash from app/core/security.py, at the byte level, with
the salt drawn by bcrypt.gensalt passed explicitly: truncate, then
bcrypt.hashpw. -/
def get_password_hash (plainBytes : List Nat) (salt : Nat) : BcryptHash :=
  bcryptHashpw (truncateBytes plainBytes) salt

/-! ### Model of Python str.encode for UTF-8

A Python str is a sequence of Unicode code points; len counts code points.
The standard UTF-8 encoding of one code point: -/

def utf8EncodeChar (c : Nat) : List Nat :=
  if c < 0x80 then [c]
  else if c < 0x800 then [0xC0 + c / 64, 0x80 + c % 64]
  else if c < 0x10000 then
    [0xE0 + c / 4096, 0x80 + (c / 64) % 64, 0x80 + c % 64]
  else
    [0xF0 + c / 0x40000, 0x80 + (c / 4096) % 64, 0x80 + (c / 64) % 64, 0x80 + c % 64]

/-- Model of pythonStr.encode, the UTF-8 byte sequence of a code-point
sequence. -/
def utf8Encode (s : List Nat) : List Nat :=
  (s.map utf8EncodeChar).flatten

/-! ### app/schemas/user.py — UserCreate password bound

The Pydantic field declares min_length=4, max_length=72 on a str, i.e. a
bound on the number of characters (code points), not on UTF-8 bytes. -/

def userCreatePasswordOk (password : List Nat) : Bool :=
  4 ≤ password.length && password.length ≤ 72

/-! ### app/models/user.py — roles and users -/

inductive UserRole where
  | admin
  | manager
  | staff
  | viewer
deriving DecidableEq, Repr

/-- The .value string of each UserRole member. -/
def roleValue : UserRole → String
  | .admin => "admin"
  | .manager => "manager"
  | .staff => "staff"
  | .viewer => "viewer"

/-- The privilege order stated by the spec (Viewer < Staff < Manager <
Admin), used only to express that authorization is not a numeric
threshold. -/
def rolePrivilege : UserRole → Nat
  | .viewer => 0
  | .staff => 1
  | .manager => 2
  | .admin => 3

/-- The columns of the User model that the auth core reads. -/
structure User where
  id : Int
  username : String
  hashed_password : HashValue
  role : UserRole
  is_active : Bool
deriving DecidableEq, Repr

/-! ### app/crud/user.py -/

/-- get_user_by_username: first row whose username column matches. -/
def get_user_by_username (db : List User) (username : String) : Option User :=
  db.find? (fun u => u.username == username)

/-- get_user: first row whose id column matches. -/
def get_user (db : List User) (user_id : Int) : Option User :=
  db.find? (fun u => u.id == user_id)

/-- crud delete_user: delete the row found by id; True iff a row was
deleted.  Ids are a primary key, so at most one row matches; the model
erases the first match. -/
def crud_delete_user (db : List User) (user_id : Int) : Bool × List User :=
  match get_user db user_id with
  | none => (false, db)
  | some _ => (true, db.eraseP (fun u => u.id == user_id))

/-- authenticate_user from app/crud/user.py: look up by name, verify the
password, check the active flag, short-circuiting in that order; each
failure returns None.  The password arrives as UTF-8 bytes.  An exception
raised by verify_password propagates (there is no handler), hence the
`Except` layer. -/
def authenticate_user (db : List User) (username : String) (passwordBytes : List Nat) :
    Except String (Option User) :=
  match get_user_by_username db username with
  | none => .ok none
  | some user =>
    match verify_password passwordBytes user.hashed_password with
    | .error e => .error e
    | .ok false => .ok none
    | .ok true =>
      if user.is_active then .ok (some user) else .ok none

/-! ### Model of the external jose JWT primitive

A claim value is a Python string or number; a payload is a dict with
string keys.  Python dicts keep insertion order, keep keys unique, and
dict.update replaces the value in place when the key exists. -/

inductive JVal where
  | str (s : String)
  | num (n : Int)
deriving DecidableEq, Repr

/-- Python dict assignment d[k] = v on a unique-key association list:
replace in place when the key exists, else append. -/
def dictSet : List (String × JVal) → String → JVal → List (String × JVal)
  | [], k, v => [(k, v)]
  | (k', v') :: rest, k, v =>
    if k' == k then (k, v) :: rest else (k', v') :: dictSet rest k v

/-- Python dict lookup d.get(k). -/
def dictGet : List (String × JVal) → String → Option JVal
  | [], _ => none
  | (k', v') :: rest, k => if k' == k then some v' else dictGet rest k

/-- A signed token is its claim payload plus the signing key; signature
validity is modelled as key equality (the signature covers all claims,
including exp, so a holder without the key can alter nothing). -/
structure JwtToken where
  payload : List (String × JVal)
  signedWith : Int
deriving DecidableEq, Repr

inductive JwtError where
  | invalidSignature
  | expiredSignature
deriving DecidableEq, Repr

/-- Model of jose jwt.encode: sign the full claim set with the key. -/
def jwtEncode (payload : List (String × JVal)) (key : Int) : JwtToken :=
  ⟨payload, key⟩

/-- Model of jose jwt.decode: check the signature, then the exp claim
against the clock (jose raises ExpiredSignatureError, a JWTError subclass,
exactly when exp is in the past); on success return the payload. -/
def jwtDecode (tok : JwtToken) (key : Int) (now : Int) :
    Except JwtError (List (String × JVal)) :=
  if tok.signedWith == key then
    match dictGet tok.payload "exp" with
    | some (.num e) => if e < now then .error .expiredSignature else .ok tok.payload
    | _ => .ok tok.payload
  else .error .invalidSignature

/-! ### app/core/security.py — token codec

The static settings (SECRET_KEY, ACCESS_TOKEN_EXPIRE_MINUTES) and the
clock reading datetime.now are passed explicitly.  Durations are seconds.
The source guard reads `if expires_delta:`, and timedelta(0) is falsy in
Python, so a zero delta falls to the default branch like None does. -/

/-- create_access_token from app/core/security.py. -/
def create_access_token (secretKey : Int) (defaultExpireMinutes : Int)
    (data : List (String × JVal)) (expires_delta : Option Int) (now : Int) : JwtToken :=
  let expire : Int :=
    match expires_delta with
    | some d => if d == 0 then now + defaultExpireMinutes * 60 else now + d
    | none => now + defaultExpireMinutes * 60
  jwtEncode (dictSet data "exp" (.num expire)) secretKey

/-- decode_access_token from app/core/security.py: jwt.decode inside a
try/except that collapses every JWTError to None. -/
def decode_access_token (secretKey : Int) (tok : JwtToken) (now : Int) :
    Option (List (String × JVal)) :=
  (jwtDecode tok secretKey now).toOption

/-! ### app/api/routes/auth.py — login -/

inductive LoginResp where
  | success (tok : JwtToken)
  | unauthorized401 (detail : String)
  | serverError500 (e : String)
deriving DecidableEq, Repr

/-- login from app/api/routes/auth.py: authenticate, then either the one
fixed 401 response or a token whose claims are sub, user_id and role,
issued with the configured expiry. -/
def login (secretKey : Int) (defaultExpireMinutes : Int) (db : List User)
    (username : String) (passwordBytes : List Nat) (now : Int) : LoginResp :=
  match authenticate_user db username passwordBytes with
  | .error e => .serverError500 e
  | .ok none => .unauthorized401 "Incorrect username or password"
  | .ok (some user) =>
    .success (create_access_token secretKey defaultExpireMinutes
      [("sub", .str user.username), ("user_id", .num user.id),
       ("role", .str (roleValue user.role))]
      (some (defaultExpireMinutes * 60)) now)

/-! ### Authorization decision

Modelled from the spec: app/core/auth.py (get_current_user,
get_current_active_user, require_role) is imported by every route module
but is not under src/.  Per the spec, authorize(principal, requirement)
is Allow iff the principal's active flag is true and its role is an exact
member of the declared role set; require_role(roles) rejects with 403
Forbidden when the resolved principal's role is not in roles. -/

/-- Modelled from the spec: the authorization decision of the missing
app/core/auth.py — Allow iff active and role an exact member of the
requirement set. -/
def authorize (p : User) (requirement : List UserRole) : Bool :=
  p.is_active && requirement.contains p.role

/-- The role set declared on POST /assets/create in
app/api/routes/assets.py. -/
def create_asset_required_roles : List UserRole := [.staff, .manager, .admin]

/-- The role set declared on PUT /assets/update in
app/api/routes/assets.py. -/
def update_asset_required_roles : List UserRole := [.manager, .admin]

/-- The role set declared on DELETE /assets/delete in
app/api/routes/assets.py. -/
def delete_asset_required_roles : List UserRole := [.admin]

/-- The inline role check of the register handler in
app/api/routes/auth.py: reject unless the current user's role is ADMIN,
i.e. the declared set is exactly the singleton admin. -/
def register_role_check (current : User) : Bool :=
  current.role == .admin

/-- The inline role check of the delete_user handler in
app/api/routes/auth.py: reject unless the current user's role is ADMIN. -/
def delete_user_role_check (current : User) : Bool :=
  current.role == .admin

/-! ### app/api/routes/auth.py — the two DELETE /auth/users/id routes -/

inductive HttpResp where
  | noContent204
  | badRequest400 (detail : String)
  | unauthorized401
  | forbidden403 (detail : String)
  | notFound404 (detail : String)
deriving DecidableEq, Repr

/-- True exactly on a 403 Forbidden response. -/
def isForbidden403 : HttpResp → Bool
  | .forbidden403 _ => true
  | _ => false

/-- The delete_user handler (the first route registered on DELETE
/auth/users/user_id): admin check, then the self-deletion guard raising
400 Bad Request, then the crud delete. -/
def delete_user_route (db : List User) (current : User) (user_id : Int) :
    HttpResp × List User :=
  if !delete_user_role_check current then
    (.forbidden403 "Only admin can delete users", db)
  else if current.id == user_id then
    (.badRequest400 "Cannot delete your own account", db)
  else
    match crud_delete_user db user_id with
    | (false, db') => (.notFound404 "User not found", db')
    | (true, db') => (.noContent204, db')

/-- The delete_user_by_id handler (the second route registered on the same
path and method): require_role([ADMIN]) dependency, no self-deletion
guard. -/
def delete_user_by_id_route (db : List User) (current : User) (user_id : Int) :
    HttpResp × List User :=
  if !(delete_user_role_check current) then
    (.forbidden403 "Access denied", db)
  else
    match crud_delete_user db user_id with
    | (false, db') => (.notFound404 "User not found", db')
    | (true, db') => (.noContent204, db')

/-- Starlette matches routes in registration order, so of the two handlers
declared for DELETE /auth/users/user_id the one registered first,
delete_user, receives every request; delete_user_by_id is unreachable. -/
def dispatch_delete_user (db : List User) (current : User) (user_id : Int) :
    HttpResp × List User :=
  delete_user_route db current user_id

/-- The full request path of DELETE /auth/users/user_id: bearer-token
resolution then the dispatched handler.  Modelled from the spec for the
parts living in the missing app/core/auth.py: no or undecodable token is
reported as 401 Unauthenticated; a decoded token resolves the principal by
its sub claim; an unresolvable subject is 401; an inactive principal is an
authorize Deny, surfaced as 403 per the spec's error taxonomy. -/
def delete_user_endpoint (secretKey : Int) (db : List User)
    (bearer : Option JwtToken) (user_id : Int) (now : Int) : HttpResp × List User :=
  match bearer with
  | none => (.unauthorized401, db)
  | some tok =>
    match decode_access_token secretKey tok now with
    | none => (.unauthorized401, db)
    | some payload =>
      match dictGet payload "sub" with
      | some (.str uname) =>
        match get_user_by_username db uname with
        | none => (.unauthorized401, db)
        | some current =>
          if current.is_active then dispatch_delete_user db current user_id
          else (.forbidden403 "Inactive user", db)
      | _ => (.unauthorized401, db)

/-! ### Request admission (rate limiting)

Modelled from the spec: app/core/limiter.py (the slowapi Limiter object)
is imported by every route module but is not under src/; only the quota
strings on the route decorators are.  Per the spec the controller keeps a
fixed quota per endpoint class over a fixed window: within one window the
first limit requests are admitted, further ones are throttled, and a
throttled request does not consume quota. -/

inductive Admission where
  | admitted
  | throttled
deriving DecidableEq, Repr

/-- Per-class counter state: the index of the current fixed window and the
number of admitted requests inside it. -/
structure RateState where
  windowIdx : Nat
  count : Nat
deriving DecidableEq, Repr

/-- Modelled from the spec: one admission decision at time t (seconds) for
a class with the given limit and window length. -/
def admitOne (limit : Nat) (window : Nat) (s : RateState) (t : Nat) :
    Admission × RateState :=
  let idx := t / window
  let c := if idx == s.windowIdx then s.count else 0
  if c < limit then (.admitted, ⟨idx, c + 1⟩) else (.throttled, ⟨idx, c⟩)

/-- A run of the admission controller over a request arrival sequence. -/
def admitRun (limit : Nat) (window : Nat) (s : RateState) :
    List Nat → List Admission × RateState
  | [] => ([], s)
  | t :: ts =>
    let step := admitOne limit window s t
    let rest := admitRun limit window step.2 ts
    (step.1 :: rest.1, rest.2)

/-- The quota strings declared on the route decorators in
app/api/routes/auth.py and app/api/routes/assets.py, as (limit, window
seconds) pairs. -/
def endpointQuotas : List (String × Nat × Nat) :=
  [("POST /auth/login", 5, 60),
   ("POST /auth/register", 30, 3600),
   ("DELETE /auth/users/user_id", 10, 60),
   ("PUT /auth/users/user_id", 30, 60),
   ("GET /assets/", 100, 60),
   ("GET /assets/asset_id", 100, 60),
   ("POST /assets/create", 20, 60),
   ("PUT /assets/update/asset_id", 30, 60),
   ("DELETE /assets/delete/asset_id", 10, 60)]

/-! ### A world for the statelessness hyperproperty

A run of the deployed system is determined by the principal store, the
static secret and the clock; token verification reads only the last
two. -/

structure AppWorld where
  store : List User
  secretKey : Int
  now : Int
deriving DecidableEq, Repr

/-- decode_access_token as invoked in a world: it reads the world's secret
and clock and never its principal store. -/
def verify_token_in_world (w : AppWorld) (tok : JwtToken) :
    Option (List (String × JVal)) :=
  decode_access_token w.secretKey tok w.now

/-! ### Concrete fixtures used by witnesses and counterexamples -/

/-- A staff user whose stored hash was produced by get_password_hash on the
password bytes [112, 119] with salt 0. -/
def aliceU : User :=
  ⟨1, "alice", .valid (get_password_hash [112, 119] 0), .staff, true⟩

/-- An admin user with id 1, used to exercise the self-deletion guard. -/
def adminSelf : User :=
  ⟨1, "root", .valid ⟨0, [112]⟩, .admin, true⟩

/-- A token issued for adminSelf with key 7 and a one-hour ttl at time 0. -/
def adminSelfTok : JwtToken :=
  create_access_token 7 30 [("sub", JVal.str "root")] (some 3600) 0

/-! ### Helper lemmas -/

lemma truncateBytes_of_gt {s : List Nat} (h : 72 < s.length) :
    truncateBytes s = s.take 72 := by
  simp [truncateBytes, BCRYPT_MAX_PASSWORD_BYTES, h]

lemma truncateBytes_of_le {s : List Nat} (h : s.length ≤ 72) :
    truncateBytes s = s := by
  simp [truncateBytes, BCRYPT_MAX_PASSWORD_BYTES]
  omega

lemma dictGet_dictSet (d : List (String × JVal)) (k : String) (v : JVal) :
    dictGet (dictSet d k v) k = some v := by
  induction d with
  | nil => simp [dictSet, dictGet]
  | cons kv rest ih =>
    obtain ⟨k', v'⟩ := kv
    cases hb : (k' == k) <;> simp [dictSet, dictGet, hb, ih]

lemma decode_create_valid (secretKey dm : Int) (data : List (String × JVal))
    (ttl t now : Int) (hz : ttl ≠ 0) (hv : ¬ t + ttl < now) :
    decode_access_token secretKey (create_access_token secretKey dm data (some ttl) t) now
      = some (dictSet data "exp" (.num (t + ttl))) := by
  have hzb : (ttl == 0) = false := by simpa using hz
  simp [decode_access_token, create_access_token, jwtEncode, jwtDecode, hzb,
    dictGet_dictSet, hv, Except.toOption]

lemma decode_create_expired (secretKey dm : Int) (data : List (String × JVal))
    (ttl t now : Int) (hz : ttl ≠ 0) (hv : t + ttl < now) :
    jwtDecode (create_access_token secretKey dm data (some ttl) t) secretKey now
      = .error .expiredSignature := by
  have hzb : (ttl == 0) = false := by simpa using hz
  simp [create_access_token, jwtEncode, jwtDecode, hzb, dictGet_dictSet, hv]

/-! ### Claim theorems -/

/-- C1: authenticate_user looks up by name, verifies the password against
the stored hash, and checks the active flag, in that order and
short-circuiting on first failure; each of the three failure branches
returns the same None, and at the login endpoint each produces the
literally identical 401 response, leaking nothing about which step
failed; on full success the principal itself is returned and login issues
its token. -/
theorem C1_authenticate_branches (secretKey dm : Int) (db : List User)
    (uname : String) (pw : List Nat) (now : Int) :
    (get_user_by_username db uname = none →
      authenticate_user db uname pw = .ok none ∧
      login secretKey dm db uname pw now
        = .unauthorized401 "Incorrect username or password") ∧
    (∀ u, get_user_by_username db uname = some u →
      verify_password pw u.hashed_password = .ok false →
      authenticate_user db uname pw = .ok none ∧
      login secretKey dm db uname pw now
        = .unauthorized401 "Incorrect username or password") ∧
    (∀ u, get_user_by_username db uname = some u →
      verify_password pw u.hashed_password = .ok true →
      u.is_active = false →
      authenticate_user db uname pw = .ok none ∧
      login secretKey dm db uname pw now
        = .unauthorized401 "Incorrect username or password") ∧
    (∀ u, get_user_by_username db uname = some u →
      verify_password pw u.hashed_password = .ok true →
      u.is_active = true →
      authenticate_user db uname pw = .ok (some u) ∧
      login secretKey dm db uname pw now
        = .success (create_access_token secretKey dm
            [("sub", .str u.username), ("user_id", .num u.id),
             ("role", .str (roleValue u.role))]
            (some (dm * 60)) now)) := by
  refine ⟨?_, ?_, ?_, ?_⟩
  · intro h
    constructor <;> simp [authenticate_user, login, h]
  · intro u hu hv
    constructor <;> simp [authenticate_user, login, hu, hv]
  · intro u hu hv ha
    constructor <;> simp [authenticate_user, login, hu, hv, ha]
  · intro u hu hv ha
    constructor <;> simp [authenticate_user, login, hu, hv, ha]

/-- Witness for C1 at a concrete store: alice with the right password and
active flag authenticates and logs in. -/
theorem C1_witness :
    authenticate_user [aliceU] "alice" [112, 119] = .ok (some aliceU) ∧
    login 9 30 [aliceU] "alice" [112, 119] 0
      = .success (create_access_token 9 30
          [("sub", .str "alice"), ("user_id", .num 1), ("role", .str "staff")]
          (some (30 * 60)) 0) := by
  have h := (C1_authenticate_branches 9 30 [aliceU] "alice" [112, 119] 0).2.2.2
    aliceU rfl rfl rfl
  exact h

/-- C3: for every secret of more than 72 bytes, hashing and verification
both truncate to the first 72 bytes, so the hash of the secret and the
hash of its 72-byte prefix each verify against both the secret and the
prefix, all with the same result ok true. -/
theorem C3_truncation_invariant (s : List Nat) (salt1 salt2 : Nat)
    (h : 72 < s.length) :
    verify_password s (.valid (get_password_hash s salt1)) = .ok true ∧
    verify_password (s.take 72) (.valid (get_password_hash s salt1)) = .ok true ∧
    verify_password s (.valid (get_password_hash (s.take 72) salt2)) = .ok true ∧
    verify_password (s.take 72) (.valid (get_password_hash (s.take 72) salt2))
      = .ok true := by
  have hts : truncateBytes s = s.take 72 := truncateBytes_of_gt h
  have htt : truncateBytes (s.take 72) = s.take 72 := by
    apply truncateBytes_of_le
    simp
  have hkey : (s.take 72).take 72 = s.take 72 := by
    simp [List.take_take]
  refine ⟨?_, ?_, ?_, ?_⟩ <;>
    simp [verify_password, bcryptCheckpw, get_password_hash, bcryptHashpw,
      hts, htt, hkey]

/-- Witness for C3 at a concrete 73-byte secret. -/
theorem C3_witness :
    72 < (List.replicate 73 7).length ∧
    verify_password (List.replicate 73 7)
      (.valid (get_password_hash (List.replicate 73 7) 1)) = .ok true ∧
    verify_password ((List.replicate 73 7).take 72)
      (.valid (get_password_hash (List.replicate 73 7) 1)) = .ok true := by
  have h := C3_truncation_invariant (List.replicate 73 7) 1 2 (by decide)
  exact ⟨by decide, h.1, h.2.1⟩

/-- C4 counterexample: with a negative ttl (a legal timedelta argument),
create_access_token followed immediately by decode_access_token does not
return the issued claims: the token is already past its expiry instant and
decoding yields None. -/
theorem C4_counterexample :
    create_access_token 0 30 [("sub", JVal.str "alice")] (some (-60)) 1000
      = jwtEncode [("sub", JVal.str "alice"), ("exp", JVal.num 940)] 0 ∧
    decode_access_token 0
      (create_access_token 0 30 [("sub", JVal.str "alice")] (some (-60)) 1000) 1000
      = none := by
  exact ⟨rfl, rfl⟩

/-- C4 amended: for every claim set and every positive ttl,
create_access_token followed immediately by decode_access_token returns
the issued claim set (the data with the computed expiry instant); once the
clock passes the expiry instant, jose's verification fails with the
expiry-specific cause ExpiredSignatureError, which decode_access_token
maps to None. -/
theorem C4_roundtrip_and_expiry (secretKey dm : Int) (data : List (String × JVal))
    (ttl now later : Int) (hpos : 0 < ttl) :
    decode_access_token secretKey
        (create_access_token secretKey dm data (some ttl) now) now
      = some (dictSet data "exp" (.num (now + ttl))) ∧
    (now + ttl < later →
      jwtDecode (create_access_token secretKey dm data (some ttl) now) secretKey later
        = .error .expiredSignature ∧
      decode_access_token secretKey
        (create_access_token secretKey dm data (some ttl) now) later = none) := by
  constructor
  · exact decode_create_valid secretKey dm data ttl now now (by omega) (by omega)
  · intro hlate
    have he := decode_create_expired secretKey dm data ttl now later (by omega) hlate
    refine ⟨he, ?_⟩
    simp [decode_access_token, he, Except.toOption]

/-- Witness for C4 at a concrete claim set and ttl. -/
theorem C4_witness :
    decode_access_token 3
        (create_access_token 3 30 [("sub", JVal.str "a")] (some 60) 0) 0
      = some [("sub", JVal.str "a"), ("exp", JVal.num 60)] ∧
    decode_access_token 3
        (create_access_token 3 30 [("sub", JVal.str "a")] (some 60) 0) 100
      = none := by
  have h := C4_roundtrip_and_expiry 3 30 [("sub", JVal.str "a")] 60 0 100 (by decide)
  refine ⟨?_, (h.2 (by decide)).2⟩
  rw [h.1]
  rfl

/-- C5 counterexample: on a hash value that is not a well-formed bcrypt
hash, verify_password does not return false: the ValueError raised by
bcrypt.checkpw escapes (the source has no exception handler). -/
theorem C5_counterexample :
    verify_password [97] (HashValue.malformed [120])
      = .error "ValueError: Invalid salt" := by
  rfl

/-- C5 amended: for every plaintext and every well-formed bcrypt hash
value, verify_password returns a boolean and no error escapes, with false
exactly on mismatch; on a structurally invalid hash value the bcrypt
primitive's ValueError propagates out of verify_password uncaught. -/
theorem C5_no_raise_on_wellformed (pw : List Nat) (h : BcryptHash) (m : List Nat) :
    verify_password pw (.valid h)
      = .ok (decide ((truncateBytes pw).take 72 = h.key)) ∧
    ((truncateBytes pw).take 72 ≠ h.key →
      verify_password pw (.valid h) = .ok false) ∧
    verify_password pw (.malformed m) = .error "ValueError: Invalid salt" := by
  refine ⟨rfl, ?_, rfl⟩
  intro hne
  simp [verify_password, bcryptCheckpw, hne]

/-- Witness for C5 at a concrete mismatching pair. -/
theorem C5_witness :
    verify_password [97] (.valid ⟨0, [98]⟩) = .ok false := by
  exact (C5_no_raise_on_wellformed [97] ⟨0, [98]⟩ []).2.1 (by decide)

/-- C2: the authorization decision is Allow iff the principal is active
and its role is an exact member of the operation's declared role set;
create_asset declares exactly the set of Staff, Manager and Admin, while
the register and delete_user handlers' inline checks accept exactly the
singleton Admin; membership is exact-set membership, not a numeric
privilege threshold — an active Admin is denied against the requirement
set containing only Viewer although Admin has the strictly higher
privilege. -/
theorem C2_authorize_exact_membership (p : User) (req : List UserRole) :
    (authorize p req = true ↔ p.is_active = true ∧ p.role ∈ req) ∧
    create_asset_required_roles = [UserRole.staff, .manager, .admin] ∧
    (register_role_check p = true ↔ p.role ∈ ([UserRole.admin] : List UserRole)) ∧
    (delete_user_role_check p = true ↔ p.role ∈ ([UserRole.admin] : List UserRole)) ∧
    (rolePrivilege .admin > rolePrivilege .viewer ∧
      authorize ⟨0, "root", .malformed [], .admin, true⟩ [UserRole.viewer] = false) := by
  refine ⟨?_, rfl, ?_, ?_, by decide, by decide⟩
  · simp [authorize, List.contains, List.elem_iff]
  · cases hpr : p.role <;> simp [register_role_check, hpr]
  · cases hpr : p.role <;> simp [delete_user_role_check, hpr]

/-- Witness for C2 at a concrete principal and requirement set. -/
theorem C2_witness :
    authorize aliceU create_asset_required_roles = true ∧
    authorize aliceU [UserRole.admin] = false := by
  have h := C2_authorize_exact_membership aliceU create_asset_required_roles
  refine ⟨h.1.mpr ⟨rfl, by decide⟩, ?_⟩
  have h2 := C2_authorize_exact_membership aliceU [UserRole.admin]
  cases hb : authorize aliceU [UserRole.admin]
  · rfl
  · exact absurd ((h2.1.mp hb).2) (by decide)

/-- C6: for every authenticated principal and every store, a DELETE
request on the principal's own user record through the route actually
dispatched for DELETE /auth/users/user_id is denied for every role
including Admin (403 for non-admins, 400 for an admin deleting itself),
and the store is unchanged. -/
theorem C6_self_delete_denied (db : List User) (current : User) :
    (dispatch_delete_user db current current.id).1 ≠ HttpResp.noContent204 ∧
    (dispatch_delete_user db current current.id).2 = db := by
  cases hr : (current.role == UserRole.admin) <;>
    simp [dispatch_delete_user, delete_user_route, delete_user_role_check, hr]

/-- Witness for C6 at a concrete admin deleting its own record. -/
theorem C6_witness :
    (dispatch_delete_user [adminSelf] adminSelf 1).1 ≠ HttpResp.noContent204 ∧
    (dispatch_delete_user [adminSelf] adminSelf 1).2 = [adminSelf] := by
  exact C6_self_delete_denied [adminSelf] adminSelf

/-- C7 counterexample: a valid, unexpired admin token deleting the
caller's own record is denied with 400 Bad Request, not with the
Forbidden kind 403 the claim asserts for self-action violations. -/
theorem C7_counterexample :
    isForbidden403 (delete_user_endpoint 7 [adminSelf] (some adminSelfTok) 1 0).1
      = false ∧
    (delete_user_endpoint 7 [adminSelf] (some adminSelfTok) 1 0).1
      = HttpResp.badRequest400 "Cannot delete your own account" := by
  exact ⟨rfl, rfl⟩

/-- C7 amended: with no valid token the outcome is 401 Unauthenticated;
with a valid, unexpired token a role-requirement denial is surfaced as 403
Forbidden, while a self-action violation is surfaced as 400 Bad Request;
the three outcomes are pairwise distinct. -/
theorem C7_failure_kinds (secretKey : Int) (db : List User) (user_id now : Int) :
    (delete_user_endpoint secretKey db none user_id now).1 = .unauthorized401 ∧
    (∀ tok, decode_access_token secretKey tok now = none →
      (delete_user_endpoint secretKey db (some tok) user_id now).1
        = .unauthorized401) ∧
    (∀ tok payload uname current,
      decode_access_token secretKey tok now = some payload →
      dictGet payload "sub" = some (.str uname) →
      get_user_by_username db uname = some current →
      current.is_active = true →
      current.role ≠ .admin →
      (delete_user_endpoint secretKey db (some tok) user_id now).1
        = .forbidden403 "Only admin can delete users") ∧
    (∀ tok payload uname current,
      decode_access_token secretKey tok now = some payload →
      dictGet payload "sub" = some (.str uname) →
      get_user_by_username db uname = some current →
      current.is_active = true →
      current.role = .admin →
      user_id = current.id →
      (delete_user_endpoint secretKey db (some tok) user_id now).1
        = .badRequest400 "Cannot delete your own account") ∧
    (HttpResp.unauthorized401 ≠ .forbidden403 "Only admin can delete users" ∧
     HttpResp.unauthorized401 ≠ .badRequest400 "Cannot delete your own account" ∧
     HttpResp.forbidden403 "Only admin can delete users"
       ≠ .badRequest400 "Cannot delete your own account") := by
  refine ⟨rfl, ?_, ?_, ?_, by decide, by decide, by decide⟩
  · intro tok hd
    simp [delete_user_endpoint, hd]
  · intro tok payload uname current hd hsub hu hact hrole
    have hrb : (current.role == UserRole.admin) = false := by
      simpa using hrole
    simp [delete_user_endpoint, hd, hsub, hu, hact, dispatch_delete_user,
      delete_user_route, delete_user_role_check, hrb]
  · intro tok payload uname current hd hsub hu hact hrole hid
    have hrb : (current.role == UserRole.admin) = true := by
      simpa using hrole
    simp [delete_user_endpoint, hd, hsub, hu, hact, dispatch_delete_user,
      delete_user_route, delete_user_role_check, hrb, hid]

/-- Witness for C7: the unauthenticated and the self-action branches at a
concrete world. -/
theorem C7_witness :
    (delete_user_endpoint 7 [adminSelf] none 1 0).1 = HttpResp.unauthorized401 ∧
    (delete_user_endpoint 7 [adminSelf] (some adminSelfTok) 1 0).1
      = HttpResp.badRequest400 "Cannot delete your own account" := by
  have h := C7_failure_kinds 7 [adminSelf] 1 0
  refine ⟨h.1, ?_⟩
  exact h.2.2.2.1 adminSelfTok [("sub", JVal.str "root"), ("exp", JVal.num 3600)]
    "root" adminSelf rfl rfl rfl rfl rfl rfl

/-- C8: token verification is stateless — its outcome depends only on the
token, the static secret and the clock, so two worlds differing only in
the principal store (the principal disabled, altered or deleted) verify
every token identically, and a token issued with a positive ttl verifies
to its issued claims in every store until its expiry instant. -/
theorem C8_stateless_verification (st1 st2 : List User) (secretKey now : Int)
    (tok : JwtToken) (dm : Int) (data : List (String × JVal))
    (ttl issuedAt checkAt : Int) :
    verify_token_in_world ⟨st1, secretKey, now⟩ tok
      = verify_token_in_world ⟨st2, secretKey, now⟩ tok ∧
    (0 < ttl → checkAt ≤ issuedAt + ttl →
      ∀ st : List User,
        verify_token_in_world ⟨st, secretKey, checkAt⟩
            (create_access_token secretKey dm data (some ttl) issuedAt)
          = some (dictSet data "exp" (.num (issuedAt + ttl)))) := by
  refine ⟨rfl, ?_⟩
  intro hpos hle st
  exact decode_create_valid secretKey dm data ttl issuedAt checkAt
    (by omega) (by omega)

/-- Witness for C8: the same token verifies identically in a store where
alice is active and in the empty store where she has been deleted, inside
its validity window. -/
theorem C8_witness :
    verify_token_in_world ⟨[aliceU], 3, 50⟩
        (create_access_token 3 30 [("sub", JVal.str "alice")] (some 60) 0)
      = verify_token_in_world ⟨[], 3, 50⟩
        (create_access_token 3 30 [("sub", JVal.str "alice")] (some 60) 0) ∧
    verify_token_in_world ⟨[], 3, 50⟩
        (create_access_token 3 30 [("sub", JVal.str "alice")] (some 60) 0)
      = some [("sub", JVal.str "alice"), ("exp", JVal.num 60)] := by
  have h := C8_stateless_verification [aliceU] [] 3 50
    (create_access_token 3 30 [("sub", JVal.str "alice")] (some 60) 0)
    30 [("sub", JVal.str "alice")] 60 0 50
  refine ⟨h.1, ?_⟩
  rw [h.2 (by decide) (by decide) []]
  rfl

/-- Lemma: while the admitted count is below the limit, every request in
the same window is admitted and increments the count. -/
lemma admitRun_all_admitted (limit window t : Nat) :
    ∀ (n c : Nat), c + n ≤ limit →
      admitRun limit window ⟨t / window, c⟩ (List.replicate n t)
        = (List.replicate n .admitted, ⟨t / window, c + n⟩) := by
  intro n
  induction n with
  | zero => intro c _; simp [admitRun]
  | succ k ih =>
    intro c hc
    have hlt : c < limit := by omega
    have hstep : admitOne limit window ⟨t / window, c⟩ t
        = (.admitted, ⟨t / window, c + 1⟩) := by
      simp [admitOne, hlt]
    rw [List.replicate_succ]
    simp only [admitRun, hstep]
    rw [ih (c + 1) (by omega)]
    have hck : c + 1 + k = c + (k + 1) := by omega
    rw [hck, List.replicate_succ]

/-- Lemma: once the count has reached the limit, every further request in
the same window is throttled and the state does not change. -/
lemma admitRun_all_throttled (limit window t : Nat) (m : Nat) :
    admitRun limit window ⟨t / window, limit⟩ (List.replicate m t)
      = (List.replicate m .throttled, ⟨t / window, limit⟩) := by
  induction m with
  | zero => simp [admitRun]
  | succ k ih =>
    have hstep : admitOne limit window ⟨t / window, limit⟩ t
        = (.throttled, ⟨t / window, limit⟩) := by
      simp [admitOne]
    rw [List.replicate_succ]
    simp only [admitRun, hstep, ih]
    simp [List.replicate_succ]

/-- Lemma: a run over a concatenated arrival sequence is the run over the
first part followed by the run over the second from the reached state. -/
lemma admitRun_append (limit window : Nat) (s : RateState) (xs ys : List Nat) :
    admitRun limit window s (xs ++ ys)
      = ((admitRun limit window s xs).1
          ++ (admitRun limit window (admitRun limit window s xs).2 ys).1,
         (admitRun limit window (admitRun limit window s xs).2 ys).2) := by
  induction xs generalizing s with
  | nil => simp [admitRun]
  | cons x xs ih => simp [admitRun, ih]

/-- C9: for each endpoint class and its declared quota — login 5/minute,
registration 30/hour, mutations 10 to 30 per minute, reads 100/minute —
a run of limit + 1 requests inside one window admits the first limit of
them and throttles exactly the last one; a request in a later window is
admitted again; and a throttled request leaves the counter state
unchanged, consuming no quota. -/
theorem C9_admission (limit window t t2 : Nat) (hl : 1 ≤ limit)
    (hw : t2 / window ≠ t / window) :
    (admitRun limit window ⟨t / window, 0⟩ (List.replicate (limit + 1) t)).1
      = List.replicate limit .admitted ++ [.throttled] ∧
    (admitRun limit window ⟨t / window, 0⟩ (List.replicate (limit + 1) t)).2
      = ⟨t / window, limit⟩ ∧
    (admitOne limit window ⟨t / window, limit⟩ t2).1 = .admitted ∧
    (∀ s : RateState, (admitOne limit window s t).1 = .throttled →
      (admitOne limit window s t).2 = s) ∧
    (List.lookup "POST /auth/login" endpointQuotas = some (5, 60) ∧
     List.lookup "POST /auth/register" endpointQuotas = some (30, 3600) ∧
     List.lookup "GET /assets/" endpointQuotas = some (100, 60) ∧
     List.lookup "POST /assets/create" endpointQuotas = some (20, 60) ∧
     List.lookup "PUT /assets/update/asset_id" endpointQuotas = some (30, 60) ∧
     List.lookup "DELETE /assets/delete/asset_id" endpointQuotas = some (10, 60)) := by
  have hfull := admitRun_all_admitted limit window t limit 0 (by omega)
  have hrun : admitRun limit window ⟨t / window, 0⟩ (List.replicate (limit + 1) t)
      = (List.replicate limit .admitted ++ [.throttled], ⟨t / window, limit⟩) := by
    rw [List.replicate_succ', admitRun_append, hfull]
    have h1 := admitRun_all_throttled limit window t 1
    simp only [Nat.zero_add] at hfull ⊢
    rw [show ([t] : List Nat) = List.replicate 1 t from rfl, h1]
    simp [List.replicate]
  refine ⟨by rw [hrun], by rw [hrun], ?_, ?_, by decide, by decide, by decide,
    by decide, by decide, by decide⟩
  · have hwb : (t2 / window == t / window) = false := by simpa using hw
    have h0 : 0 < limit := hl
    simp [admitOne, hwb, h0]
  · intro s hth
    by_cases hb : (t / window == s.windowIdx) = true
    · have hbe : t / window = s.windowIdx := by simpa using hb
      by_cases hcnt : s.count < limit
      · exfalso
        simp [admitOne, hb, hcnt] at hth
      · simp [admitOne, hb, hcnt, hbe]
    · exfalso
      have hb' : (t / window == s.windowIdx) = false := by
        simpa using hb
      have h0 : 0 < limit := hl
      simp [admitOne, hb', h0] at hth

/-- Witness for C9 at the login quota of five requests per minute. -/
theorem C9_witness :
    (admitRun 5 60 ⟨0, 0⟩ (List.replicate 6 0)).1
      = List.replicate 5 .admitted ++ [.throttled] ∧
    (admitOne 5 60 ⟨0, 5⟩ 60).1 = .admitted := by
  have h := C9_admission 5 60 0 60 (by decide) (by decide)
  exact ⟨h.1, h.2.2.1⟩

/-- C10: the UserCreate schema bounds passwords by character count (4 to
72 characters), not bytes; consequently, for any two distinct accepted
passwords whose UTF-8 encodings both exceed 72 bytes and agree on their
first 72 bytes (possible with multibyte characters, as the witness
shows), verify_password accepts either password against the other's hash
for every salt — the public-interface length bound does not rule out
hasher truncation or these cross-verifying collisions. -/
theorem C10_charbound_collision (p1 p2 : List Nat) (salt1 salt2 : Nat)
    (hne : p1 ≠ p2)
    (hok1 : userCreatePasswordOk p1 = true)
    (hok2 : userCreatePasswordOk p2 = true)
    (hl1 : 72 < (utf8Encode p1).length)
    (hl2 : 72 < (utf8Encode p2).length)
    (hpre : (utf8Encode p1).take 72 = (utf8Encode p2).take 72) :
    verify_password (utf8Encode p1)
      (.valid (get_password_hash (utf8Encode p2) salt2)) = .ok true ∧
    verify_password (utf8Encode p2)
      (.valid (get_password_hash (utf8Encode p1) salt1)) = .ok true := by
  have e1 : truncateBytes (utf8Encode p1) = (utf8Encode p1).take 72 :=
    truncateBytes_of_gt hl1
  have e2 : truncateBytes (utf8Encode p2) = (utf8Encode p2).take 72 :=
    truncateBytes_of_gt hl2
  constructor <;>
    simp [verify_password, bcryptCheckpw, get_password_hash, bcryptHashpw,
      e1, e2, List.take_take, hpre]

/-- Witness for C10: two distinct 37-character passwords (36 copies of
the two-byte character é and one ASCII letter) are both accepted by the
schema, encode to 73 bytes agreeing on the first 72, and cross-verify. -/
theorem C10_witness :
    verify_password (utf8Encode (List.replicate 36 233 ++ [97]))
      (.valid (get_password_hash (utf8Encode (List.replicate 36 233 ++ [98])) 5))
      = .ok true ∧
    verify_password (utf8Encode (List.replicate 36 233 ++ [98]))
      (.valid (get_password_hash (utf8Encode (List.replicate 36 233 ++ [97])) 9))
      = .ok true := by
  exact C10_charbound_collision (List.replicate 36 233 ++ [97])
    (List.replicate 36 233 ++ [98]) 9 5
    (by decide) (by decide) (by decide) (by decide) (by decide) (by decide)

